import Mathlib

/-!
Verification development for the Research-Agent-System repository.

This file shallowly embeds the operations of the repository that the
claims C1-C10 are about:

* `src/rag/text_processor.py`   — `TextProcessor.split_into_chunks`
* `src/agents/researcher.py`    — `_are_papers_similar`, `_merge_paper_info`,
  `_deduplicate_papers`, `_paper_sort_key` and the dedup/rank fragment of
  `research_async`
* `src/rag/s3_vector_store.py`  — `add_chunks`, `_upload_to_s3`,
  `_download_file_from_s3`, `_download_and_load`
* `src/rag/embedding_service.py` — `_load_model` / `_ensure_model_loaded`,
  `get_embedding_dimension`, `encode_text`, `compute_similarity`

Python strings are modelled as `List Char` (for the index-based chunker,
where Python's negative-index slicing semantics matter) or as `String`
(for the word/author set computations).  Python float arithmetic is
idealised as exact rational arithmetic (`ℚ`); the only float-specific
behaviour a claim depends on — `0.0 / 0.0 = NaN` in `compute_similarity`
— is represented explicitly (`SimResult.nan`), and the zero test that
triggers it (`np.linalg.norm v = 0` iff the sum of squares is `0`) is
exact in both models.  External effects (S3 transfers, local file I/O,
the sentence-transformer model) are passed in as explicit "world" values
describing each call's outcome, mirroring exactly which outcomes the
Python code can observe.
-/

namespace ResearchAgent

/-! ## Python string semantics helpers -/

/-- Resolve a (possibly negative) Python slice bound against length `n`:
negative indices count from the end, then the bound is clamped to `[0, n]`. -/
def pyResolveIdx (n : Int) (i : Int) : Int :=
  if i < 0 then max (n + i) 0 else min i n

/-- Python `t[a:b]` on a character list, with Python's negative-index and
clamping semantics. -/
def pySlice (t : List Char) (a b : Int) : List Char :=
  let n : Int := t.length
  let a' := pyResolveIdx n a
  let b' := pyResolveIdx n b
  if a' < b' then (t.drop a'.toNat).take (b' - a').toNat else []

/-- Python `t[a:]`. -/
def pySliceFrom (t : List Char) (a : Int) : List Char :=
  pySlice t a t.length

/-- Python `t.rfind(c)` for a single character: highest index of `c`,
or `-1` when absent. -/
def rfindChar (t : List Char) (c : Char) : Int :=
  match t.reverse.findIdx? (· == c) with
  | none => -1
  | some i => (t.length : Int) - 1 - i

/-- Python `t.strip()` (whitespace from both ends). -/
def pyStrip (t : List Char) : List Char :=
  ((t.dropWhile Char.isWhitespace).reverse.dropWhile Char.isWhitespace).reverse

/-! ## TextProcessor.split_into_chunks  (src/rag/text_processor.py, lines 68-121)

The `while start < len(text)` loop is modelled with explicit fuel because
the Python loop does not terminate on all inputs (e.g. a window whose only
space sits exactly `overlap` characters in re-enters with the same `start`).
`none` means the fuel ran out before the loop exited.

Each appended chunk is recorded together with its window `(start, end)` —
the slice bounds the Python code uses — so that coverage of the input by
chunk windows is a statement about the model's output. -/

/-- One iteration structure of the chunking loop, faithful to the source:
`end = start + chunk_size`; final chunk when `end >= len(text)`; otherwise
prefer the last sentence terminator past `chunk_size // 2`, then the last
space at a positive index (both of these strip the emitted chunk), else a
hard break; the next `start` is always the chosen `end - overlap`. -/
def splitLoop (cs ov : Nat) (text : List Char) :
    Nat → Int → List ((Int × Int) × List Char) →
    Option (List ((Int × Int) × List Char))
  | 0, _, _ => none
  | fuel + 1, start, acc =>
    if start < (text.length : Int) then
      let endI : Int := start + (cs : Int)
      if endI ≥ (text.length : Int) then
        some (acc ++ [((start, (text.length : Int)), pySliceFrom text start)])
      else
        let chunkText := pySlice text start endI
        let lastSentenceEnd :=
          max (rfindChar chunkText '.') (max (rfindChar chunkText '!') (rfindChar chunkText '?'))
        if lastSentenceEnd > ((cs / 2 : Nat) : Int) then
          let endS : Int := start + lastSentenceEnd + 1
          splitLoop cs ov text fuel (endS - (ov : Int))
            (acc ++ [((start, endS), pyStrip (pySlice text start endS))])
        else
          let lastSpace := rfindChar chunkText ' '
          if lastSpace > 0 then
            let endW : Int := start + lastSpace
            splitLoop cs ov text fuel (endW - (ov : Int))
              (acc ++ [((start, endW), pyStrip (pySlice text start endW))])
          else
            splitLoop cs ov text fuel (endI - (ov : Int))
              (acc ++ [((start, endI), chunkText)])
    else
      some acc

/-- The loop of `split_into_chunks` for the `len(text) > chunk_size` case,
keeping each appended chunk with its window. -/
def splitEntries (fuel cs ov : Nat) (text : List Char) :
    Option (List ((Int × Int) × List Char)) :=
  splitLoop cs ov text fuel 0 []

/-- Kept entries after the final `[chunk for chunk in chunks if chunk.strip()]`
filter (which drops whitespace-only chunks but keeps the surviving chunks
verbatim). -/
def splitKept (fuel cs ov : Nat) (text : List Char) :
    Option (List ((Int × Int) × List Char)) :=
  (splitEntries fuel cs ov text).map fun es =>
    es.filter fun e => !(pyStrip e.2).isEmpty

/-- `TextProcessor.split_into_chunks`: the returned list of chunks.
The `len(text) <= chunk_size` early return does NOT pass through the
empty-chunk filter, so the empty input returns `[""]`. -/
def split_into_chunks (fuel cs ov : Nat) (text : List Char) :
    Option (List (List Char)) :=
  if text.length ≤ cs then some [text]
  else (splitKept fuel cs ov text).map fun es => es.map (·.2)

/-- The windows of the returned chunks. -/
def split_windows (fuel cs ov : Nat) (text : List Char) :
    Option (List (Int × Int)) :=
  if text.length ≤ cs then some [(0, (text.length : Int))]
  else (splitKept fuel cs ov text).map fun es => es.map (·.1)

/-- Whether character position `p` lies in at least one window. -/
def windowsCover (ws : List (Int × Int)) (p : Int) : Bool :=
  ws.any fun w => decide (w.1 ≤ p) && decide (p < w.2)

/-! ## ResearcherAgent  (src/agents/researcher.py)

Paper records are Python dicts; the fields the embedded operations read
are modelled as a structure, with `Option` for fields that may be absent
(`paper.get(...)` returning `None`).  Python truthiness of an optional
string is "present and non-empty"; of an optional integer it is "present
and non-zero". -/

/-- The fields of a paper record that `_are_papers_similar`,
`_merge_paper_info`, `_paper_sort_key` and `_deduplicate_papers` read. -/
structure Paper where
  title : String
  authors : List String
  arxiv_id : Option String
  doi : Option String
  citation_count : Option Int
  year : Option Int
  pdf_url : Option String
  venue : Option String
  sources : List String
deriving DecidableEq

/-- Python truthiness of an optional string (`None` and `""` are falsy). -/
def truthyS : Option String → Bool
  | none => false
  | some s => !s.isEmpty

/-- Python truthiness of an optional integer (`None` and `0` are falsy). -/
def truthyI : Option Int → Bool
  | none => false
  | some n => decide (n ≠ 0)

/-- Split on whitespace runs, dropping empty pieces (Python `str.split()`). -/
def splitWsGo : List Char → List Char → List (List Char)
  | [], acc => if acc.isEmpty then [] else [acc.reverse]
  | c :: rest, acc =>
    if c.isWhitespace then
      if acc.isEmpty then splitWsGo rest [] else acc.reverse :: splitWsGo rest []
    else splitWsGo rest (c :: acc)

/-- Python `s.split()` on a string. -/
def pySplitWs (s : String) : List String :=
  (splitWsGo s.toList []).map String.mk

/-- Python `s.lower()`, applied per character (the inputs here are ASCII). -/
def pyLowerStr (s : String) : String :=
  String.mk (s.toList.map Char.toLower)

/-- `set(paper.get('title', '').lower().split())`. -/
def titleWordSet (p : Paper) : Finset String :=
  (pySplitWs (pyLowerStr p.title)).toFinset

/-- `set(author.lower() for author in paper.get('authors', []))`. -/
def authorSet (p : Paper) : Finset String :=
  (p.authors.map pyLowerStr).toFinset

/-- `ResearcherAgent._are_papers_similar` (lines 442-477): exact id match on
truthy `arxiv_id` or `doi`, else weighted word-set Jaccard similarity
compared non-strictly (`>=`) against the threshold (default `0.85`).
Float arithmetic is idealised as exact rationals. -/
def are_papers_similar (threshold : ℚ) (p1 p2 : Paper) : Bool :=
  if truthyS p1.arxiv_id = true ∧ truthyS p2.arxiv_id = true ∧ p1.arxiv_id = p2.arxiv_id then
    true
  else if truthyS p1.doi = true ∧ truthyS p2.doi = true ∧ p1.doi = p2.doi then
    true
  else
    let t1 := titleWordSet p1
    let t2 := titleWordSet p2
    if t1 = ∅ ∨ t2 = ∅ then false
    else
      let titleSim : ℚ := if t1 ∪ t2 = ∅ then 0 else ((t1 ∩ t2).card : ℚ) / ((t1 ∪ t2).card : ℚ)
      let a1 := authorSet p1
      let a2 := authorSet p2
      let authorSim : ℚ :=
        if a1 ≠ ∅ ∧ a2 ≠ ∅ then ((a1 ∩ a2).card : ℚ) / ((a1 ∪ a2).card : ℚ) else 0
      decide (titleSim * (8 / 10) + authorSim * (2 / 10) ≥ threshold)

/-- The claim's similarity formula, written from the spec's words:
`0.8 * jaccard(title word sets) + 0.2 * jaccard(author name sets)`,
with the Jaccard index of two empty sets taken as `0`. -/
def jaccardQ (A B : Finset String) : ℚ :=
  if A ∪ B = ∅ then 0 else ((A ∩ B).card : ℚ) / ((A ∪ B).card : ℚ)

/-- Spec-side combined similarity score of two paper records. -/
def claimScore (p1 p2 : Paper) : ℚ :=
  (8 / 10) * jaccardQ (titleWordSet p1) (titleWordSet p2) +
    (2 / 10) * jaccardQ (authorSet p1) (authorSet p2)

/-- "No shared non-empty arxiv_id": the first early-return of
`_are_papers_similar` does not fire. -/
def noSharedArxiv (p1 p2 : Paper) : Prop :=
  ¬(truthyS p1.arxiv_id = true ∧ truthyS p2.arxiv_id = true ∧ p1.arxiv_id = p2.arxiv_id)

/-- "No shared non-empty doi". -/
def noSharedDoi (p1 p2 : Paper) : Prop :=
  ¬(truthyS p1.doi = true ∧ truthyS p2.doi = true ∧ p1.doi = p2.doi)

instance (p1 p2 : Paper) : Decidable (noSharedArxiv p1 p2) := by
  unfold noSharedArxiv; infer_instance

instance (p1 p2 : Paper) : Decidable (noSharedDoi p1 p2) := by
  unfold noSharedDoi; infer_instance

/-- `for source in secondary['sources']: if source not in primary['sources']:
primary['sources'].append(source)`. -/
def mergeSources (ps ss : List String) : List String :=
  ss.foldl (fun acc s => if s ∈ acc then acc else acc ++ [s]) ps

/-- `ResearcherAgent._merge_paper_info` (lines 479-505): union `sources`,
backfill `citation_count`, `pdf_url`, `venue`, `doi` on the primary when its
own value is falsy and the secondary's is truthy. -/
def merge_paper_info (primary secondary : Paper) : Paper :=
  { primary with
    sources := mergeSources primary.sources secondary.sources
    citation_count :=
      if truthyI primary.citation_count = false ∧ truthyI secondary.citation_count = true then
        secondary.citation_count
      else primary.citation_count
    pdf_url :=
      if truthyS primary.pdf_url = false ∧ truthyS secondary.pdf_url = true then
        secondary.pdf_url
      else primary.pdf_url
    venue :=
      if truthyS primary.venue = false ∧ truthyS secondary.venue = true then
        secondary.venue
      else primary.venue
    doi :=
      if truthyS primary.doi = false ∧ truthyS secondary.doi = true then
        secondary.doi
      else primary.doi }

/-- Scan the accepted unique papers for the first one similar to `p`;
on a hit, that element absorbs `p` via `merge_paper_info` in place. -/
def dedupScan (threshold : ℚ) (p : Paper) : List Paper → Option (List Paper)
  | [] => none
  | q :: rest =>
    if are_papers_similar threshold p q then some (merge_paper_info q p :: rest)
    else (dedupScan threshold p rest).map fun rest' => q :: rest'

/-- One iteration of the `for paper in papers` loop of `_deduplicate_papers`. -/
def dedupInsert (threshold : ℚ) (unique : List Paper) (p : Paper) : List Paper :=
  match dedupScan threshold p unique with
  | some updated => updated
  | none => unique ++ [p]

/-- `ResearcherAgent._deduplicate_papers` (lines 423-440). -/
def deduplicate_papers (threshold : ℚ) (papers : List Paper) : List Paper :=
  papers.foldl (dedupInsert threshold) []

/-- `ResearcherAgent._paper_sort_key` (lines 507-513):
`(citation_count or 0, year or 0, 1 if pdf_url else 0)`.
(`x or 0` maps both `None` and `0` to `0`, so it equals `getD 0` on the
optional integer fields.) -/
def paper_sort_key (p : Paper) : Int × Int × Int :=
  (p.citation_count.getD 0, p.year.getD 0, if truthyS p.pdf_url = true then 1 else 0)

/-- Python's lexicographic `<=` on 3-tuples. -/
def pyTupleLe (a b : Int × Int × Int) : Prop :=
  a.1 < b.1 ∨ (a.1 = b.1 ∧ (a.2.1 < b.2.1 ∨ (a.2.1 = b.2.1 ∧ a.2.2 ≤ b.2.2)))

instance : DecidableRel pyTupleLe := fun a b => by unfold pyTupleLe; infer_instance

/-- Descending-by-sort-key order on papers: the order
`unique_papers.sort(key=self._paper_sort_key, reverse=True)` sorts into. -/
def rankGE (a b : Paper) : Prop := pyTupleLe (paper_sort_key b) (paper_sort_key a)

instance : DecidableRel rankGE := fun a b => by unfold rankGE; infer_instance

instance : IsTotal Paper rankGE :=
  ⟨by intro a b; unfold rankGE pyTupleLe; omega⟩

instance : IsTrans Paper rankGE :=
  ⟨by intro a b c hab hbc; unfold rankGE pyTupleLe at *; omega⟩

/-- `unique_papers.sort(key=self._paper_sort_key, reverse=True)` (line 175).
Python's sort is a stable sort; with `reverse=True` it is the unique stable
descending sort by the key, which insertion sort under `rankGE` computes. -/
def rank_papers (l : List Paper) : List Paper :=
  List.insertionSort rankGE l

/-- Step 3 of `research_async` (lines 167-172): deduplicate only when more
than one source is enabled for this invocation. -/
def uniquePapersStep (search_sources : List String) (all_papers : List Paper) : List Paper :=
  if 1 < search_sources.length then deduplicate_papers (85 / 100) all_papers else all_papers

/-- `duplicates_removed` as reported in the result dict (line 227):
`len(all_papers) - len(unique_papers)`. -/
def duplicatesRemoved (search_sources : List String) (all_papers : List Paper) : Nat :=
  all_papers.length - (uniquePapersStep search_sources all_papers).length

/-! ## S3VectorStore  (src/rag/s3_vector_store.py)

Python dicts with string keys are modelled as insertion-ordered
association lists with unique keys: `dictInsert` replaces an existing
binding in place (as Python assignment to an existing key does) and
appends a fresh one; `dictUpdate` is `dict.update`.

Embedding vectors are a type parameter `V`, and `_normalize_vector`
(whose `np.linalg.norm` involves an irrational square root) is passed as
an abstract function `normalize : V → V`: none of the embedded store
operations inspect vector values, they only move them. -/

/-- A Python dict as an insertion-ordered association list. -/
def Dict (K A : Type) : Type := List (K × A)

/-- Lookup (`d[k]` / `d.get(k)`). -/
def dictFind {K A : Type} [DecidableEq K] : Dict K A → K → Option A
  | [], _ => none
  | (k0, a0) :: rest, k => if k = k0 then some a0 else dictFind rest k

/-- Assignment `d[k] = a`: replace in place, else append. -/
def dictInsert {K A : Type} [DecidableEq K] : Dict K A → K → A → Dict K A
  | [], k, a => [(k, a)]
  | (k0, a0) :: rest, k, a =>
    if k = k0 then (k, a) :: rest else (k0, a0) :: dictInsert rest k a

/-- `d.update(e)`: insert `e`'s bindings in order. -/
def dictUpdate {K A : Type} [DecidableEq K] (d e : Dict K A) : Dict K A :=
  e.foldl (fun acc kv => dictInsert acc kv.1 kv.2) d

/-- The nested `metadata` dict a `TextChunk` carries
(src/rag/text_processor.py lines 203-208). -/
structure ChunkMetaData where
  published : String
  citation_count : Int
  venue : String
  fields_of_study : List String
deriving DecidableEq

/-- `TextChunk` (src/rag/text_processor.py lines 14-24). -/
structure TextChunk where
  chunk_id : String
  text : String
  paper_id : String
  paper_title : String
  authors : List String
  source : String
  chunk_type : String
  metadata : ChunkMetaData
deriving DecidableEq

/-- The per-row metadata dict `add_chunks` stores
(src/rag/s3_vector_store.py lines 193-202). -/
structure RowMeta where
  chunk_id : String
  text : String
  paper_id : String
  paper_title : String
  authors : List String
  source : String
  chunk_type : String
  metadata : ChunkMetaData
deriving DecidableEq

/-- The dict literal built at lines 193-202. -/
def RowMeta.ofChunk (c : TextChunk) : RowMeta :=
  ⟨c.chunk_id, c.text, c.paper_id, c.paper_title, c.authors, c.source, c.chunk_type, c.metadata⟩

/-- The in-memory state of an `S3VectorStore`: the FAISS index (its vector
rows, in order), `chunk_metadata`, `chunk_id_to_index`, `_is_synced`. -/
structure StoreState (V : Type) where
  index : List V
  chunk_metadata : Dict String RowMeta
  chunk_id_to_index : Dict String Nat
  is_synced : Bool

/-- `_initialize_index` plus the reset of both maps and the synced flag in
the `except` branch of `_download_and_load` (lines 140-145). -/
def resetState (V : Type) : StoreState V :=
  ⟨[], [], [], false⟩

/-- The `for i, chunk in enumerate(chunks)` collection loop of `add_chunks`
(lines 172-204): skip chunks whose id is already mapped, skip chunks with
no embedding, otherwise normalize and stage the vector, its row metadata
(keyed by `str(faiss_index)`) and its id mapping, where
`faiss_index = starting_index + len(vectors_to_add) - 1` after appending. -/
def collectLoop {V : Type} (normalize : V → V) (m : Dict String Nat)
    (emb : String → Option V) (start : Nat) :
    List TextChunk → List V → Dict String RowMeta → Dict String Nat →
    List V × Dict String RowMeta × Dict String Nat
  | [], accV, accM, accI => (accV, accM, accI)
  | c :: rest, accV, accM, accI =>
    if (dictFind m c.chunk_id).isSome then
      collectLoop normalize m emb start rest accV accM accI
    else
      match emb c.chunk_id with
      | none => collectLoop normalize m emb start rest accV accM accI
      | some v =>
        let accV' := accV ++ [normalize v]
        let fi := start + accV'.length - 1
        collectLoop normalize m emb start rest accV'
          (dictInsert accM (toString fi) (RowMeta.ofChunk c))
          (dictInsert accI c.chunk_id fi)

/-- Outcomes of the external effects `_upload_to_s3` performs: whether
writing the three local files raises, and whether each of the three
`upload_file` calls succeeds (`_upload_file_to_s3` catches exceptions and
returns a boolean). -/
structure UploadWorld where
  local_write : Except String Unit
  up_index : Bool
  up_metadata : Bool
  up_mapping : Bool

/-- `S3VectorStore._upload_to_s3` (lines 314-344): a local-write exception
sets `_is_synced = False` and re-raises; otherwise `_is_synced` becomes the
conjunction of the three upload results and the call returns `None`. -/
def upload_to_s3 {V : Type} (s : StoreState V) (w : UploadWorld) :
    Except String Unit × StoreState V :=
  match w.local_write with
  | Except.error e => (Except.error e, { s with is_synced := false })
  | Except.ok _ =>
    let success := w.up_index && w.up_metadata && w.up_mapping
    (Except.ok (), { s with is_synced := success })

/-- `S3VectorStore.add_chunks` (lines 154-221): early return on an empty
chunk list or when nothing new is staged; otherwise append the staged
vectors, `dict.update` both maps, and call `_upload_to_s3`.  The first
component is the call's outcome as the caller sees it: Python returns
`None` (`Except.ok ()`) unless an exception propagates. -/
def add_chunks {V : Type} (normalize : V → V) (s : StoreState V)
    (chunks : List TextChunk) (emb : String → Option V) (w : UploadWorld) :
    Except String Unit × StoreState V :=
  if chunks.isEmpty then (Except.ok (), s)
  else
    let staged := collectLoop normalize s.chunk_id_to_index emb s.index.length chunks [] [] []
    if staged.1.isEmpty then (Except.ok (), s)
    else
      let s1 : StoreState V :=
        { index := s.index ++ staged.1
          chunk_metadata := dictUpdate s.chunk_metadata staged.2.1
          chunk_id_to_index := dictUpdate s.chunk_id_to_index staged.2.2
          is_synced := s.is_synced }
      upload_to_s3 s1 w

/-- What a durable artifact looks like from this process: absent in S3
(`head_object` 404), download failed (any exception — `_download_file_from_s3`
catches it and returns `False`, indistinguishable from absent), or
downloaded with the result of reading/parsing it (`faiss.read_index` /
`json.load` may raise). -/
inductive Artifact (α : Type) where
  | missing : Artifact α
  | failed : Artifact α
  | stored : Except String α → Artifact α

/-- `_download_file_from_s3` (lines 91-103): `True` only when the object
exists and the transfer succeeded. -/
def downloadOk {α : Type} : Artifact α → Bool
  | Artifact.stored _ => true
  | _ => false

/-- Whether reading/parsing the downloaded artifact raises. -/
def Artifact.readFails {α : Type} : Artifact α → Bool
  | Artifact.stored (Except.error _) => true
  | _ => false

/-- One `if self._download_file_from_s3(...)` block of `_download_and_load`:
keep the current value when the download reported `False`, else read the
artifact (propagating a read/parse exception). -/
def loadStep {α : Type} (cur : α) : Artifact α → Except String α
  | Artifact.stored r => r
  | _ => Except.ok cur

/-- The three durable artifacts as seen by one `_download_and_load` run. -/
structure DownloadWorld (V : Type) where
  index_art : Artifact (List V)
  metadata_art : Artifact (Dict String RowMeta)
  mapping_art : Artifact (Dict String Nat)

/-- Any of the three read/parse steps raises. -/
def readErr {V : Type} (w : DownloadWorld V) : Bool :=
  w.index_art.readFails || w.metadata_art.readFails || w.mapping_art.readFails

/-- `S3VectorStore._download_and_load` (lines 115-145), also run by
`force_sync_from_s3` (line 349): load each artifact in turn (keeping the
current in-memory value when its download reported `False`), then set
`_is_synced = True`; if any step raised, reset to the empty state with
`_is_synced = False`. -/
def download_and_load {V : Type} (s : StoreState V) (w : DownloadWorld V) : StoreState V :=
  match loadStep s.index w.index_art with
  | Except.error _ => resetState V
  | Except.ok idx =>
    match loadStep s.chunk_metadata w.metadata_art with
    | Except.error _ => resetState V
    | Except.ok md =>
      match loadStep s.chunk_id_to_index w.mapping_art with
      | Except.error _ => resetState V
      | Except.ok mp =>
        { index := idx, chunk_metadata := md, chunk_id_to_index := mp, is_synced := true }

/-! ## EmbeddingService  (src/rag/embedding_service.py)

The sentence-transformer model is a black box with a dimension and an
encode function that may raise; loading it may raise.  A service state
tracks `_model_loaded` and `self.model`. -/

/-- The loaded sentence-transformer model as the service uses it. -/
structure SentenceModel where
  dim : Nat
  encode : String → Except String (List ℚ)

/-- `self._model_loaded` and `self.model`. -/
structure EmbState where
  model_loaded : Bool
  model : Option SentenceModel

/-- `_load_model` / `_ensure_model_loaded` (lines 59-89): a no-op when
already loaded; otherwise the constructor call either yields a model
(setting both fields) or raises, propagating. -/
def ensure_model_loaded (s : EmbState) (load : Except String SentenceModel) :
    Except String EmbState :=
  if s.model_loaded then Except.ok s
  else load.map fun m => ⟨true, some m⟩

/-- `get_embedding_dimension` (lines 105-110): first `_ensure_model_loaded()`
(which loads, or raises), then the `384` default only if `self.model` is
still `None`. -/
def get_embedding_dimension (s : EmbState) (load : Except String SentenceModel) :
    Except String (Nat × EmbState) :=
  (ensure_model_loaded s load).map fun s' =>
    (match s'.model with
     | none => 384
     | some m => m.dim, s')

/-- Python `not text or not text.strip()`. -/
def pyBlank (t : String) : Bool :=
  t.isEmpty || (pyStrip t.toList).isEmpty

/-- `encode_text` (lines 112-141): blank text returns
`np.zeros(self.get_embedding_dimension())` (which itself forces a load);
otherwise ensure the model is loaded and encode, degrading to a zero
vector if `model.encode` raises. -/
def encode_text (s : EmbState) (load : Except String SentenceModel) (t : String) :
    Except String (List ℚ × EmbState) :=
  if pyBlank t then
    (get_embedding_dimension s load).map fun (d, s') => (List.replicate d 0, s')
  else
    (ensure_model_loaded s load).bind fun s' =>
      match s'.model with
      | none => Except.error "AttributeError"
      | some m =>
        match m.encode t with
        | Except.ok v => Except.ok (v, s')
        | Except.error _ => Except.ok (List.replicate m.dim 0, s')

/-- `np.dot` of two equal-length vectors. -/
def dotP (v w : List ℚ) : ℚ :=
  (List.zipWith (· * ·) v w).sum

/-- Squared Euclidean norm: `np.linalg.norm v = 0` iff `normSq v = 0`. -/
def normSq (v : List ℚ) : ℚ :=
  (v.map fun x => x * x).sum

/-- The float `compute_similarity` returns: IEEE `0.0/0.0` is NaN when
either norm is zero (then the dot product is zero too); otherwise the
finite value `dot / (‖v‖ * ‖w‖)`, kept symbolic as its algebraic data
since the norms are square roots. -/
inductive SimResult where
  | nan : SimResult
  | finite : ℚ → ℚ → ℚ → SimResult
deriving DecidableEq

/-- `compute_similarity` (lines 185-207): ensure loaded, encode both texts,
return `np.dot(e1, e2) / (np.linalg.norm(e1) * np.linalg.norm(e2))` —
NaN when the denominator is zero. -/
def compute_similarity (s : EmbState) (load : Except String SentenceModel)
    (t1 t2 : String) : Except String SimResult :=
  (ensure_model_loaded s load).bind fun s1 =>
    (encode_text s1 load t1).bind fun (e1, s2) =>
      (encode_text s2 load t2).bind fun (e2, _) =>
        Except.ok
          (if normSq e1 = 0 ∨ normSq e2 = 0 then SimResult.nan
           else SimResult.finite (dotP e1 e2) (normSq e1) (normSq e2))

/-! ## Concrete inputs used by the counterexamples and witnesses -/

/-- `"a " + "x" * 18` with `chunk_size = 10`, `overlap = 2`: the first window's
only space is at index 1, so the word-boundary branch sets
`start = 1 - 2 = -1`, and Python's negative slicing then skips characters. -/
def c1ChunkText : List Char := 'a' :: ' ' :: List.replicate 18 'x'

/-- Paper record with title words `{deep, learning, methods, survey}` and
authors `{alice, bob}`; no identifiers. -/
def c3PaperA : Paper :=
  { title := "Deep Learning Methods Survey", authors := ["Alice", "Bob"],
    arxiv_id := none, doi := none, citation_count := none, year := none,
    pdf_url := none, venue := none, sources := ["arxiv"] }

/-- Same title word set as `c3PaperA`, eight authors of which two are shared:
author Jaccard `2/8 = 1/4`, so the combined score is exactly
`0.8 * 1 + 0.2 * (1/4) = 0.85`. -/
def c3PaperB : Paper :=
  { title := "deep learning methods survey",
    authors := ["alice", "bob", "carol", "dan", "erin", "frank", "grace", "heidi"],
    arxiv_id := none, doi := none, citation_count := none, year := none,
    pdf_url := none, venue := none, sources := ["semantic_scholar"] }

/-- `citation_count = 10`, `year = 2020`. -/
def c8PaperA : Paper :=
  { title := "A", authors := [], arxiv_id := none, doi := none,
    citation_count := some 10, year := some 2020, pdf_url := none,
    venue := none, sources := [] }

/-- `citation_count = 10`, `year = 2019`. -/
def c8PaperB : Paper :=
  { title := "B", authors := [], arxiv_id := none, doi := none,
    citation_count := some 10, year := some 2019, pdf_url := none,
    venue := none, sources := [] }

/-- `citation_count = 5`, `year = 2023`. -/
def c8PaperC : Paper :=
  { title := "C", authors := [], arxiv_id := none, doi := none,
    citation_count := some 5, year := some 2023, pdf_url := none,
    venue := none, sources := [] }

/-- A record with a non-empty `arxiv_id`; two copies of it are exact
duplicates by the identifier rule. -/
def c10Dup : Paper :=
  { title := "Same Paper", authors := ["x"], arxiv_id := some "2101.00001",
    doi := none, citation_count := none, year := none, pdf_url := none,
    venue := none, sources := ["arxiv"] }

/-- A chunk to ingest. -/
def cexChunk : TextChunk :=
  { chunk_id := "c1", text := "hello world", paper_id := "p1",
    paper_title := "T", authors := ["a"], source := "arxiv",
    chunk_type := "abstract", metadata := ⟨"2020", 3, "v", []⟩ }

/-- Embeddings dict containing exactly the chunk `c1` (vectors are `Nat`
in the concrete instances; the store never inspects them). -/
def cexEmb : String → Option Nat := fun id => if id = "c1" then some 7 else none

/-- A freshly constructed, empty store (the state right after
`_initialize_index` and before `_download_and_load`). -/
def cexStoreEmpty : StoreState Nat := ⟨[], [], [], false⟩

/-- The first S3 upload fails, the local writes succeed. -/
def cexUploadFail : UploadWorld := ⟨Except.ok (), false, true, true⟩

/-- All uploads succeed. -/
def cexUploadOk : UploadWorld := ⟨Except.ok (), true, true, true⟩

/-- The FAISS index downloads and parses (one vector), but downloading the
metadata and id-mapping artifacts fails with a transfer error
(`_download_file_from_s3` catches it and returns `False`). -/
def c2World : DownloadWorld Nat :=
  ⟨Artifact.stored (Except.ok [7]), Artifact.failed, Artifact.failed⟩

/-- The FAISS index downloads but `faiss.read_index` raises. -/
def c2WorldErr : DownloadWorld Nat :=
  ⟨Artifact.stored (Except.error "corrupt index"), Artifact.missing, Artifact.missing⟩

/-- An available model whose dimension is 512 (not the 384 default). -/
def c6Model : SentenceModel := ⟨512, fun _ => Except.ok []⟩

/-- A service constructed with `lazy_load=True`, before any encode. -/
def c6Unloaded : EmbState := ⟨false, none⟩

/-- A loaded 2-dimensional model. -/
def c7Model : SentenceModel := ⟨2, fun _ => Except.ok [1, 0]⟩

/-- A service whose model is already loaded. -/
def c7Loaded : EmbState := ⟨true, some c7Model⟩

/-! ## Helper lemmas -/

theorem jaccardQ_nonneg (A B : Finset String) : 0 ≤ jaccardQ A B := by
  unfold jaccardQ; split
  · exact le_refl 0
  · positivity

theorem jaccardQ_le_one (A B : Finset String) : jaccardQ A B ≤ 1 := by
  unfold jaccardQ; split
  · norm_num
  · rename_i h
    rw [div_le_one]
    · exact_mod_cast Finset.card_le_card Finset.inter_subset_union
    · exact_mod_cast Finset.card_pos.mpr (Finset.nonempty_iff_ne_empty.mpr h)

theorem jaccardQ_zero_of_empty (A B : Finset String) (h : A = ∅ ∨ B = ∅) :
    jaccardQ A B = 0 := by
  unfold jaccardQ; split
  · rfl
  · rcases h with h | h <;> subst h <;> simp

/-- The source's author-similarity expression (guarded by both author sets
being non-empty) computes the same value as the claim's Jaccard index. -/
theorem author_sim_eq_jaccardQ (A B : Finset String) :
    (if A ≠ ∅ ∧ B ≠ ∅ then ((A ∩ B).card : ℚ) / ((A ∪ B).card : ℚ) else 0) = jaccardQ A B := by
  split
  · rename_i h
    have hu : A ∪ B ≠ ∅ := by
      intro hu
      exact h.1 (Finset.union_eq_empty.mp hu).1
    unfold jaccardQ
    rw [if_neg hu]
  · rename_i h
    rw [not_and_or, not_not, not_not] at h
    exact (jaccardQ_zero_of_empty A B h).symm

/-- The two concrete records share all four title words. -/
theorem jaccard_title_c3 : jaccardQ (titleWordSet c3PaperA) (titleWordSet c3PaperB) = 1 := by
  unfold jaccardQ
  rw [if_neg (by decide), show (titleWordSet c3PaperA ∩ titleWordSet c3PaperB).card = 4 by decide,
    show (titleWordSet c3PaperA ∪ titleWordSet c3PaperB).card = 4 by decide]
  norm_num

/-- The two concrete records share two of eight author names. -/
theorem jaccard_authors_c3 : jaccardQ (authorSet c3PaperA) (authorSet c3PaperB) = 1 / 4 := by
  unfold jaccardQ
  rw [if_neg (by decide), show (authorSet c3PaperA ∩ authorSet c3PaperB).card = 2 by decide,
    show (authorSet c3PaperA ∪ authorSet c3PaperB).card = 8 by decide]
  norm_num

theorem dictFind_dictInsert_self {K A : Type} [DecidableEq K] (d : Dict K A) (k : K) (a : A) :
    dictFind (dictInsert d k a) k = some a := by
  induction d with
  | nil => simp [dictInsert, dictFind]
  | cons kv rest ih =>
    obtain ⟨k0, a0⟩ := kv
    by_cases h : k = k0
    · subst h; simp [dictInsert, dictFind]
    · simp [dictInsert, dictFind, h, ih]

theorem dictFind_dictInsert_isSome {K A : Type} [DecidableEq K] (d : Dict K A) (k k' : K) (a : A)
    (h : (dictFind d k).isSome) : (dictFind (dictInsert d k' a) k).isSome := by
  induction d with
  | nil => simp [dictFind] at h
  | cons kv rest ih =>
    obtain ⟨k0, a0⟩ := kv
    by_cases hk' : k' = k0
    · subst hk'
      by_cases hk : k = k'
      · subst hk; simp [dictInsert, dictFind]
      · simp [dictInsert, dictFind, hk] at h ⊢
        exact h
    · by_cases hk : k = k0
      · subst hk; simp [dictInsert, dictFind, hk']
      · simp [dictInsert, dictFind, hk', hk] at h ⊢
        exact ih h

theorem dictUpdate_cons {K A : Type} [DecidableEq K] (d : Dict K A) (kv : K × A) (e : Dict K A) :
    dictUpdate d (kv :: e) = dictUpdate (dictInsert d kv.1 kv.2) e := rfl

theorem dictFind_dictUpdate_isSome_left {K A : Type} [DecidableEq K] (e : Dict K A) :
    ∀ (d : Dict K A) (k : K), (dictFind d k).isSome → (dictFind (dictUpdate d e) k).isSome := by
  induction e with
  | nil => intro d k h; exact h
  | cons kv rest ih =>
    intro d k h
    rw [dictUpdate_cons]
    exact ih _ _ (dictFind_dictInsert_isSome d k kv.1 kv.2 h)

theorem dictFind_dictUpdate_isSome_right {K A : Type} [DecidableEq K] (e : Dict K A) :
    ∀ (d : Dict K A) (k : K), (dictFind e k).isSome → (dictFind (dictUpdate d e) k).isSome := by
  induction e with
  | nil => intro d k h; simp [dictFind] at h
  | cons kv rest ih =>
    obtain ⟨k0, a0⟩ := kv
    intro d k h
    rw [dictUpdate_cons]
    by_cases hk : k = k0
    · subst hk
      exact dictFind_dictUpdate_isSome_left rest _ _ (by simp [dictFind_dictInsert_self])
    · exact ih _ _ (by simpa [dictFind, hk] using h)

/-- Keys present in the staging id-map accumulator stay present through the
rest of the collection loop. -/
theorem collectLoop_mono {V : Type} (n : V → V) (m : Dict String Nat) (emb : String → Option V)
    (st : Nat) (cs : List TextChunk) :
    ∀ accV accM accI k, (dictFind accI k).isSome →
      (dictFind (collectLoop n m emb st cs accV accM accI).2.2 k).isSome := by
  induction cs with
  | nil => intro accV accM accI k h; simpa [collectLoop] using h
  | cons c0 rest ih =>
    intro accV accM accI k h
    by_cases h1 : (dictFind m c0.chunk_id).isSome = true
    · simp only [collectLoop, h1, if_true]
      exact ih _ _ _ _ h
    · cases h2 : emb c0.chunk_id with
      | none =>
        simp only [collectLoop, h1, if_false, h2]
        exact ih _ _ _ _ h
      | some v =>
        simp only [collectLoop, h1, if_false, h2]
        exact ih _ _ _ _ (dictFind_dictInsert_isSome _ _ _ _ h)

/-- Every chunk of the batch is either skipped because its id is already
mapped, skipped because it has no embedding, or ends up in the staged
id-map. -/
theorem collectLoop_covers {V : Type} (n : V → V) (m : Dict String Nat) (emb : String → Option V)
    (st : Nat) (cs : List TextChunk) :
    ∀ accV accM accI c, c ∈ cs →
      (dictFind m c.chunk_id).isSome = true ∨ emb c.chunk_id = none ∨
      (dictFind (collectLoop n m emb st cs accV accM accI).2.2 c.chunk_id).isSome = true := by
  induction cs with
  | nil => intro _ _ _ c hc; cases hc
  | cons c0 rest ih =>
    intro accV accM accI c hc
    rcases List.mem_cons.mp hc with hceq | hcr
    · subst hceq
      by_cases h1 : (dictFind m c.chunk_id).isSome = true
      · exact Or.inl h1
      · rcases h2 : emb c.chunk_id with _ | v
        · exact Or.inr (Or.inl rfl)
        · right; right
          simp only [collectLoop, h1, if_false, h2]
          exact collectLoop_mono n m emb st rest _ _ _ _ (by simp [dictFind_dictInsert_self])
    · by_cases h1 : (dictFind m c0.chunk_id).isSome = true
      · simp only [collectLoop, h1, if_true]
        exact ih _ _ _ c hcr
      · rcases h2 : emb c0.chunk_id with _ | v
        · simp only [collectLoop, h1, if_false, h2]
          exact ih _ _ _ c hcr
        · simp only [collectLoop, h1, if_false, h2]
          exact ih _ _ _ c hcr

/-- When every chunk is skipped, the collection loop stages nothing. -/
theorem collectLoop_skip_all {V : Type} (n : V → V) (m : Dict String Nat) (emb : String → Option V)
    (st : Nat) (cs : List TextChunk) :
    ∀ accV accM accI,
      (∀ c ∈ cs, (dictFind m c.chunk_id).isSome = true ∨ emb c.chunk_id = none) →
      collectLoop n m emb st cs accV accM accI = (accV, accM, accI) := by
  induction cs with
  | nil => intro accV accM accI _; simp [collectLoop]
  | cons c0 rest ih =>
    intro accV accM accI hall
    have hrest : ∀ c ∈ rest, (dictFind m c.chunk_id).isSome = true ∨ emb c.chunk_id = none :=
      fun c hc => hall c (List.mem_cons_of_mem _ hc)
    rcases hall c0 (List.mem_cons_self c0 rest) with h1 | h2
    · simp only [collectLoop, h1, if_true]
      exact ih _ _ _ hrest
    · by_cases h1 : (dictFind m c0.chunk_id).isSome = true
      · simp only [collectLoop, h1, if_true]
        exact ih _ _ _ hrest
      · simp only [collectLoop, h1, if_false, h2]
        exact ih _ _ _ hrest

theorem collectLoop_ne_nil {V : Type} (n : V → V) (m : Dict String Nat) (emb : String → Option V)
    (st : Nat) (cs : List TextChunk) :
    ∀ accV accM accI, accV ≠ [] → (collectLoop n m emb st cs accV accM accI).1 ≠ [] := by
  induction cs with
  | nil => intro accV accM accI h; simpa [collectLoop] using h
  | cons c0 rest ih =>
    intro accV accM accI h
    by_cases h1 : (dictFind m c0.chunk_id).isSome = true
    · simp only [collectLoop, h1, if_true]
      exact ih _ _ _ h
    · rcases h2 : emb c0.chunk_id with _ | v
      · simp only [collectLoop, h1, if_false, h2]
        exact ih _ _ _ h
      · simp only [collectLoop, h1, if_false, h2]
        exact ih _ _ _ (by simp)

/-- If the collection loop staged no vector, every chunk was skipped. -/
theorem collectLoop_nil_skip {V : Type} (n : V → V) (m : Dict String Nat) (emb : String → Option V)
    (st : Nat) (cs : List TextChunk) :
    ∀ accV accM accI, (collectLoop n m emb st cs accV accM accI).1 = [] →
      ∀ c ∈ cs, (dictFind m c.chunk_id).isSome = true ∨ emb c.chunk_id = none := by
  induction cs with
  | nil => intro _ _ _ _ c hc; cases hc
  | cons c0 rest ih =>
    intro accV accM accI hres c hc
    by_cases h1 : (dictFind m c0.chunk_id).isSome = true
    · rcases List.mem_cons.mp hc with rfl | hcr
      · exact Or.inl h1
      · exact ih _ _ _ (by simpa only [collectLoop, h1, if_true] using hres) c hcr
    · rcases h2 : emb c0.chunk_id with _ | v
      · rcases List.mem_cons.mp hc with rfl | hcr
        · exact Or.inr h2
        · exact ih _ _ _ (by simpa only [collectLoop, h1, if_false, h2] using hres) c hcr
      · exfalso
        have hres' : (collectLoop n m emb st rest (accV ++ [n v])
            (dictInsert accM (toString (st + (accV ++ [n v]).length - 1)) (RowMeta.ofChunk c0))
            (dictInsert accI c0.chunk_id (st + (accV ++ [n v]).length - 1))).1 = [] := by
          simpa only [collectLoop, h1, if_false, h2] using hres
        exact collectLoop_ne_nil n m emb st rest _ _ _ (by simp) hres'

/-- `_upload_to_s3` only changes the synced flag of the in-memory state. -/
theorem upload_to_s3_state {V : Type} (s : StoreState V) (w : UploadWorld) :
    ∃ b, (upload_to_s3 s w).2 = { s with is_synced := b } := by
  cases hw : w.local_write with
  | error e => exact ⟨false, by simp [upload_to_s3, hw]⟩
  | ok u => exact ⟨w.up_index && w.up_metadata && w.up_mapping, by simp [upload_to_s3, hw]⟩

/-- `add_chunks` leaves the state untouched when every chunk of the batch is
already mapped or lacks an embedding. -/
theorem add_chunks_noop {V : Type} (n : V → V) (s : StoreState V) (cs : List TextChunk)
    (emb : String → Option V) (w : UploadWorld)
    (h : ∀ c ∈ cs, (dictFind s.chunk_id_to_index c.chunk_id).isSome = true ∨
      emb c.chunk_id = none) :
    (add_chunks n s cs emb w).2 = s := by
  by_cases hcs : cs.isEmpty = true
  · simp [add_chunks, hcs]
  · have hcol := collectLoop_skip_all n s.chunk_id_to_index emb s.index.length cs [] [] [] h
    simp [add_chunks, hcs, hcol]

/-! ## Claim theorems -/

/-- C1 (code bug): on the input `"a " + "x" * 18` with `chunk_size = 10` and
`overlap = 2` — longer than `chunk_size`, so the loop runs — the chunks
returned by `split_into_chunks` have windows `[0,1)`, `[7,17)`, `[15,20)`:
character position 3 (an `'x'`, not whitespace) lies in no returned chunk's
window, refuting the claimed coverage.  The word-boundary branch sets
`start = 1 - 2 = -1`; Python's negative slicing makes the next window empty
and the loop then resumes at position 7, silently dropping positions 1-6. -/
theorem split_into_chunks_drops_positions :
    10 < c1ChunkText.length ∧
    c1ChunkText[3]? = some 'x' ∧
    split_windows 10 10 2 c1ChunkText = some [(0, 1), (7, 17), (15, 20)] ∧
    windowsCover [(0, 1), (7, 17), (15, 20)] 3 = false := by decide

/-- C2 (corrected, counterexample): starting from a fresh empty store, when
the FAISS index artifact downloads and loads (one vector) but the metadata
and id-mapping downloads fail with transfer errors, `_download_and_load`
finishes with the index loaded, the id map empty, and `_is_synced = True` —
it does not roll back to an empty, unsynced state as the claim requires. -/
theorem download_transfer_failure_partial_sync :
    (download_and_load (resetState Nat) c2World).is_synced = true ∧
    (download_and_load (resetState Nat) c2World).index = [7] ∧
    (download_and_load (resetState Nat) c2World).chunk_id_to_index = [] :=
  ⟨rfl, rfl, rfl⟩

/-- C2 (corrected, amended): the store rolls back to the empty unsynced
state exactly when reading/parsing a downloaded artifact raises; download
failures (transfer errors) are indistinguishable from absence
(`_download_file_from_s3` catches all exceptions and returns `False`), so
the affected artifact is skipped, the rest are loaded, and the store
finishes with `_is_synced = True`, possibly in a partially-consistent
state. -/
theorem download_and_load_reset_iff_read_error (V : Type) (s : StoreState V)
    (w : DownloadWorld V) :
    (readErr w = true → download_and_load s w = resetState V) ∧
    (readErr w = false → (download_and_load s w).is_synced = true) := by
  rcases w with ⟨(_ | _ | (e1 | v1)), (_ | _ | (e2 | v2)), (_ | _ | (e3 | v3))⟩ <;>
    constructor <;> intro h <;>
      simp_all [download_and_load, loadStep, readErr, Artifact.readFails, resetState]

/-- C2 witness: a corrupt index artifact (read raises) resets the store; a
transfer failure alone leaves it synced. -/
theorem download_and_load_reset_iff_read_error_witness :
    download_and_load (resetState Nat) c2WorldErr = resetState Nat ∧
    (download_and_load (resetState Nat) c2World).is_synced = true :=
  ⟨(download_and_load_reset_iff_read_error Nat (resetState Nat) c2WorldErr).1 rfl,
   (download_and_load_reset_iff_read_error Nat (resetState Nat) c2World).2 rfl⟩

/-- C3 (corrected, counterexample): two records with no identifiers,
identical title word sets, and author Jaccard exactly `1/4` score exactly
`0.8 * 1 + 0.2 * (1/4) = 0.85`; `_are_papers_similar` flags them as
duplicates (its comparison is `>=`), while the claim's "exceeds the
threshold" predicate (`> 0.85`) does not hold — the decision does not equal
the strict comparison. -/
theorem are_papers_similar_boundary_counterexample :
    noSharedArxiv c3PaperA c3PaperB ∧ noSharedDoi c3PaperA c3PaperB ∧
    are_papers_similar (85 / 100) c3PaperA c3PaperB = true ∧
    ¬(claimScore c3PaperA c3PaperB > 85 / 100) := by
  refine ⟨by decide, by decide, ?_, ?_⟩
  · simp only [are_papers_similar]
    rw [if_neg (by decide), if_neg (by decide), if_neg (by decide), decide_eq_true_eq,
      author_sim_eq_jaccardQ]
    show jaccardQ (titleWordSet c3PaperA) (titleWordSet c3PaperB) * (8 / 10) +
        jaccardQ (authorSet c3PaperA) (authorSet c3PaperB) * (2 / 10) ≥ 85 / 100
    rw [jaccard_title_c3, jaccard_authors_c3]
    norm_num
  · unfold claimScore
    rw [jaccard_title_c3, jaccard_authors_c3]
    norm_num

/-- C3 (corrected, amended): for every pair of records with no shared
non-empty `arxiv_id` or `doi`, the duplicate decision equals whether
`0.8 * jaccard(title word sets) + 0.2 * jaccard(author name sets)` is at
least (`>=`, non-strict) the default threshold `0.85`; in particular a
score of exactly `0.8` is not flagged and a score of `1.0` is flagged, as
the claim's two concrete cases state. -/
theorem are_papers_similar_iff_claim_score (p1 p2 : Paper)
    (h1 : noSharedArxiv p1 p2) (h2 : noSharedDoi p1 p2) :
    (are_papers_similar (85 / 100) p1 p2 = true ↔ claimScore p1 p2 ≥ 85 / 100) := by
  unfold noSharedArxiv at h1
  unfold noSharedDoi at h2
  simp only [are_papers_similar]
  rw [if_neg h1, if_neg h2]
  by_cases ht : titleWordSet p1 = ∅ ∨ titleWordSet p2 = ∅
  · rw [if_pos ht]
    constructor
    · intro hFalse; exact absurd hFalse (by simp)
    · intro hScore
      exfalso
      have hT := jaccardQ_zero_of_empty _ _ ht
      have hA := jaccardQ_le_one (authorSet p1) (authorSet p2)
      unfold claimScore at hScore
      rw [hT] at hScore
      linarith
  · rw [if_neg ht]
    rw [decide_eq_true_eq]
    rw [author_sim_eq_jaccardQ]
    show jaccardQ (titleWordSet p1) (titleWordSet p2) * (8 / 10) +
        jaccardQ (authorSet p1) (authorSet p2) * (2 / 10) ≥ 85 / 100 ↔ _
    unfold claimScore
    constructor <;> intro <;> linarith

/-- C3 witness: the amended equivalence applied to the two concrete
boundary records. -/
theorem are_papers_similar_iff_claim_score_witness :
    noSharedArxiv c3PaperA c3PaperB ∧ noSharedDoi c3PaperA c3PaperB ∧
    (are_papers_similar (85 / 100) c3PaperA c3PaperB = true ↔
      claimScore c3PaperA c3PaperB ≥ 85 / 100) :=
  ⟨by decide, by decide,
   are_papers_similar_iff_claim_score c3PaperA c3PaperB (by decide) (by decide)⟩

/-- C4 (corrected, counterexample): adding one fresh chunk with an upload
failure and with all uploads succeeding produces the very same return
value (`None`, no exception) even though the synced flag differs — the
caller is not informed of the persistence failure through a return value
or an exception. -/
theorem add_chunks_upload_failure_silent :
    (add_chunks id cexStoreEmpty [cexChunk] cexEmb cexUploadFail).1 =
      (add_chunks id cexStoreEmpty [cexChunk] cexEmb cexUploadOk).1 ∧
    (add_chunks id cexStoreEmpty [cexChunk] cexEmb cexUploadFail).2.is_synced = false ∧
    (add_chunks id cexStoreEmpty [cexChunk] cexEmb cexUploadOk).2.is_synced = true :=
  ⟨rfl, rfl, rfl⟩

/-- C4 (corrected, amended): after a batch add that stages at least one new
vector, the durable write of all three artifacts is attempted; if any
upload fails, `_is_synced` becomes false but the call still returns `None`
with no failure indication (the flag, visible through `get_stats`, is the
only signal); only a local serialization error raises to the caller (also
setting `_is_synced = False`). -/
theorem add_chunks_outcome_spec {V : Type} (n : V → V) (s : StoreState V)
    (cs : List TextChunk) (emb : String → Option V) (w : UploadWorld)
    (hne : cs.isEmpty = false)
    (hstaged : (collectLoop n s.chunk_id_to_index emb s.index.length cs [] [] []).1.isEmpty
      = false) :
    ((w.local_write = Except.ok () →
        (add_chunks n s cs emb w).1 = Except.ok () ∧
        (add_chunks n s cs emb w).2.is_synced =
          (w.up_index && w.up_metadata && w.up_mapping)) ∧
     (∀ e, w.local_write = Except.error e →
        (add_chunks n s cs emb w).1 = Except.error e ∧
        (add_chunks n s cs emb w).2.is_synced = false)) := by
  constructor
  · intro hw
    constructor <;> simp [add_chunks, hne, hstaged, upload_to_s3, hw]
  · intro e hw
    constructor <;> simp [add_chunks, hne, hstaged, upload_to_s3, hw]

/-- C4 witness: the amended behaviour at the concrete failing upload. -/
theorem add_chunks_outcome_spec_witness :
    (add_chunks id cexStoreEmpty [cexChunk] cexEmb cexUploadFail).1 = Except.ok () ∧
    (add_chunks id cexStoreEmpty [cexChunk] cexEmb cexUploadFail).2.is_synced =
      (cexUploadFail.up_index && cexUploadFail.up_metadata && cexUploadFail.up_mapping) :=
  (add_chunks_outcome_spec id cexStoreEmpty [cexChunk] cexEmb cexUploadFail
    (by decide) (by decide)).1 rfl

/-- C5 (confirmed): `add_chunks` is idempotent — adding the same batch with
the same embeddings a second time changes nothing: every chunk is either
already present in `chunk_id_to_index` after the first add (so the second
pass skips it) or lacks an embedding (so both passes skip it), the second
pass stages no vector and returns before touching the index, either map,
or the synced flag.  This holds for any outcomes `w`, `w'` of the two
durable writes. -/
theorem add_chunks_idempotent {V : Type} (n : V → V) (s : StoreState V) (cs : List TextChunk)
    (emb : String → Option V) (w w' : UploadWorld) :
    (add_chunks n ((add_chunks n s cs emb w).2) cs emb w').2 = (add_chunks n s cs emb w).2 := by
  by_cases hcs : cs.isEmpty = true
  · simp [add_chunks, hcs]
  · have hcs' : cs.isEmpty = false := by simpa using hcs
    by_cases hr : (collectLoop n s.chunk_id_to_index emb s.index.length cs [] [] []).1.isEmpty
      = true
    · have h1 : (add_chunks n s cs emb w).2 = s := by simp [add_chunks, hcs', hr]
      rw [h1]
      simp [add_chunks, hcs', hr]
    · have hr' : (collectLoop n s.chunk_id_to_index emb s.index.length cs [] [] []).1.isEmpty
          = false := by simpa using hr
      have hmap : (add_chunks n s cs emb w).2.chunk_id_to_index =
          dictUpdate s.chunk_id_to_index
            (collectLoop n s.chunk_id_to_index emb s.index.length cs [] [] []).2.2 := by
        obtain ⟨b, hb⟩ := upload_to_s3_state (V := V)
          { index := s.index ++ (collectLoop n s.chunk_id_to_index emb s.index.length cs [] [] []).1
            chunk_metadata := dictUpdate s.chunk_metadata
              (collectLoop n s.chunk_id_to_index emb s.index.length cs [] [] []).2.1
            chunk_id_to_index := dictUpdate s.chunk_id_to_index
              (collectLoop n s.chunk_id_to_index emb s.index.length cs [] [] []).2.2
            is_synced := s.is_synced } w
        simp [add_chunks, hcs', hr', hb]
      apply add_chunks_noop
      intro c hc
      rcases collectLoop_covers n s.chunk_id_to_index emb s.index.length cs [] [] [] c hc
        with h | h | h
      · left; rw [hmap]; exact dictFind_dictUpdate_isSome_left _ _ _ h
      · right; exact h
      · left; rw [hmap]; exact dictFind_dictUpdate_isSome_right _ _ _ h

/-- C6 (code bug): querying the dimension on a lazily-initialized service
whose model is not yet loaded triggers `_ensure_model_loaded()` first: with
a 512-dimensional model available the call loads it (flipping
`_model_loaded`) and returns 512 rather than the configured default 384;
and when loading fails the call raises instead of returning the default.
The `return 384` fallback is unreachable for an unloaded service. -/
theorem get_embedding_dimension_forces_load :
    get_embedding_dimension c6Unloaded (Except.ok c6Model) =
      Except.ok (512, ⟨true, some c6Model⟩) ∧
    get_embedding_dimension c6Unloaded (Except.error "load failed") =
      (Except.error "load failed" : Except String (Nat × EmbState)) :=
  ⟨rfl, rfl⟩

/-- C7 (code bug): for two blank texts — both encoded to zero vectors —
`compute_similarity` returns the IEEE NaN produced by `0.0 / 0.0`: it
neither returns 0 nor raises an `EmbeddingError` (no such class exists in
the repository); the caller receives an undefined float value. -/
theorem compute_similarity_zero_vectors_nan :
    compute_similarity c7Loaded (Except.ok c7Model) "" "  " = Except.ok SimResult.nan := by
  have h : normSq [(0 : ℚ), 0] = 0 := by norm_num [normSq]
  simp [compute_similarity, ensure_model_loaded, encode_text, pyBlank, pyStrip,
    get_embedding_dimension, c7Loaded, c7Model, Except.bind, Except.map, h]

/-- C8 (confirmed): ranking sorts descending by the lexicographic 3-tuple
`(citation_count or 0, year or 0, has_pdf)` — the result is sorted under
`rankGE` and is a permutation of the input — and on records with citation
counts `[10, 10, 5]` and years `[2020, 2019, 2023]` the `(10, 2020)` record
is placed before `(10, 2019)`, and both before the `citation_count = 5`
record, whatever the input order. -/
theorem rank_papers_spec :
    (∀ l : List Paper, List.Sorted rankGE (rank_papers l)) ∧
    (∀ l : List Paper, (rank_papers l).Perm l) ∧
    rank_papers [c8PaperA, c8PaperB, c8PaperC] = [c8PaperA, c8PaperB, c8PaperC] ∧
    rank_papers [c8PaperB, c8PaperC, c8PaperA] = [c8PaperA, c8PaperB, c8PaperC] :=
  ⟨fun l => List.sorted_insertionSort rankGE l,
   fun l => List.perm_insertionSort rankGE l,
   by decide, by decide⟩

/-- C9 (corrected, counterexample): `split_into_chunks` on the empty string
returns `[""]` — a non-empty result whose only chunk is the empty string —
and on a non-empty all-whitespace input longer than `chunk_size` it returns
zero chunks; both refute the claim ("empty input yields an empty result",
"at least one chunk for non-empty input", "no chunk is the empty
string"). -/
theorem split_into_chunks_empty_and_whitespace :
    split_into_chunks 10 10 2 [] = some [[]] ∧
    split_into_chunks 10 10 2 (List.replicate 11 ' ') = some [] := by decide

/-- C9 (corrected, amended): the operation (typed on strings; Python raises
`TypeError` on `None`) returns the single whole text `[text]` whenever
`len(text) <= chunk_size` — so the empty input yields `[""]`, not an empty
result, and a non-empty short input yields exactly one non-empty chunk —
and for longer inputs every chunk the loop returns has non-blank content
(the final filter drops whitespace-only chunks), though an all-whitespace
input can yield zero chunks. -/
theorem split_into_chunks_amended (fuel cs ov : Nat) (t : List Char) :
    (t.length ≤ cs → split_into_chunks fuel cs ov t = some [t]) ∧
    (∀ r c, cs < t.length → split_into_chunks fuel cs ov t = some r → c ∈ r →
      pyStrip c ≠ []) := by
  constructor
  · intro h
    simp [split_into_chunks, h]
  · intro r c hlen hsome hc
    have hnot : ¬ t.length ≤ cs := by omega
    unfold split_into_chunks at hsome
    rw [if_neg hnot] at hsome
    rcases Option.map_eq_some'.mp hsome with ⟨es, hes, hr⟩
    subst hr
    rcases List.mem_map.mp hc with ⟨e, he, hec⟩
    subst hec
    unfold splitKept at hes
    rcases Option.map_eq_some'.mp hes with ⟨es0, hes0, hf⟩
    subst hf
    have hkeep := (List.mem_filter.mp he).2
    simp only [Bool.not_eq_true'] at hkeep
    intro hnil
    rw [hnil] at hkeep
    simp at hkeep

/-- C9 witness: the short-input clause applied to `"hi"`. -/
theorem split_into_chunks_amended_witness :
    split_into_chunks 5 10 2 ['h', 'i'] = some [['h', 'i']] :=
  (split_into_chunks_amended 5 10 2 ['h', 'i']).1 (by decide)

/-- C10 (confirmed): with exactly one enabled source for the invocation,
the deduplication pass is skipped entirely — the unique-paper list is the
raw combined list (duplicates retained) and the reported
`duplicates_removed` count is 0. -/
theorem single_source_skips_dedup (src : List String) (papers : List Paper)
    (h : src.length = 1) :
    uniquePapersStep src papers = papers ∧ duplicatesRemoved src papers = 0 := by
  have hn : ¬(1 < src.length) := by omega
  constructor
  · simp [uniquePapersStep, hn]
  · simp [duplicatesRemoved, uniquePapersStep, hn]

/-- C10 witness: two records sharing an identical non-empty `arxiv_id` are
both retained when only arxiv is enabled, with zero duplicates reported. -/
theorem single_source_skips_dedup_witness :
    uniquePapersStep ["arxiv"] [c10Dup, c10Dup] = [c10Dup, c10Dup] ∧
    duplicatesRemoved ["arxiv"] [c10Dup, c10Dup] = 0 :=
  single_source_skips_dedup ["arxiv"] [c10Dup, c10Dup] rfl

end ResearchAgent
